import Mathlib

/-!
Shallow embedding of the rudis in-memory key-value store (the parts the
claims touch): the `Database` keyspace model from `src/database/mod.rs`,
the per-type operations from `src/database/{strings,sets,lists,zsets,keys}.rs`
and `src/data_structures/{list,hash,sorted_set,set}.rs`, the reply
formatting from `src/commands/command_helper.rs` and the command handlers
in `src/commands/{strings,sets,lists,keys,connection}.rs`, plus the RESP
bulk-string decoder from `src/networking/resp.rs`.

Byte strings that the claims never need to be non-UTF-8 are modelled as
Lean `String`; the wire decoder, where UTF-8 validity is the point, works
on raw byte lists.  DashMaps and HashMaps become association lists; the
`Mutex<u8>` current-db selector becomes a plain field (the lock only
serialises access, it does not change the value semantics); `SystemTime`
becomes a `Nat` of milliseconds, passed in explicitly where the source
calls `SystemTime::now()`.  Rust `i64` arithmetic that the source performs
with the unchecked `+` operator is modelled with `wrap64` (the release-mode
two's-complement wrap; debug builds abort instead, noted at use sites).
-/

set_option maxRecDepth 8192

/-- Association-list lookup, mirroring `DashMap::get` / `HashMap::get`. -/
def mapGet {α : Type} (m : List (String × α)) (k : String) : Option α :=
  match m with
  | [] => none
  | (k', v) :: t => if k' = k then some v else mapGet t k

/-- Association-list insert-or-replace, mirroring `DashMap::insert`. -/
def mapInsert {α : Type} (m : List (String × α)) (k : String) (v : α) :
    List (String × α) :=
  match m with
  | [] => [(k, v)]
  | (k', v') :: t => if k' = k then (k, v) :: t else (k', v') :: mapInsert t k v

/-- Association-list removal, mirroring `DashMap::remove` (returns the removed
value, if any, together with the remaining map). -/
def mapRemove {α : Type} (m : List (String × α)) (k : String) :
    Option α × List (String × α) :=
  match m with
  | [] => (none, [])
  | (k', v') :: t =>
    if k' = k then (some v', t)
    else
      let r := mapRemove t k
      (r.1, (k', v') :: r.2)

/-- Membership test, mirroring `DashMap::contains_key`. -/
def mapContains {α : Type} (m : List (String × α)) (k : String) : Bool :=
  (mapGet m k).isSome

/-- Lookup in the `HashMap<u8, _>` of per-database tables. -/
def assocGetN {α : Type} (m : List (Nat × α)) (k : Nat) : Option α :=
  match m with
  | [] => none
  | (k', v) :: t => if k' = k then some v else assocGetN t k

/-- Replace the value stored for index `k` in a `HashMap<u8, _>` table
(used to write a mutated per-database map back into the state). -/
def assocSetN {α : Type} (m : List (Nat × α)) (k : Nat) (v : α) :
    List (Nat × α) :=
  match m with
  | [] => []
  | (k', v') :: t => if k' = k then (k, v) :: t else (k', v') :: assocSetN t k v

/-- The tagged value variant from `src/database/mod.rs::RedisValue`.
`RedisString` (an `Arc<String>` / `Bytes` cell) is its content; `RedisHash`
and `RedisSet` are their underlying maps/sets; `RedisSortedSet` stores
member ↦ score.  Scores are kept as their decimal source text because no
claim consumes IEEE-754 arithmetic on them: `SortedSetOp::zadd` only needs
to know whether `v.parse::<f64>()` succeeds (`f64ParseOk` below). -/
inductive RedisValue where
  | str (value : String)
  | hash (fields : List (String × String))
  | list (items : List String)
  | set (members : List String)
  | zset (members : List (String × String))
  deriving DecidableEq, Repr

/-- The error enumeration from `src/commands/errors.rs` (the variants the
embedded operations can produce). -/
inductive CommandError where
  | WrongType
  | InvalidInteger
  | InvalidFloat
  | SyntaxError
  | KeyNotFound
  | IndexOutOfRange
  | InvalidRange
  | InvalidPattern
  deriving DecidableEq, Repr

/-- The `#[error(...)]` display strings from `src/commands/errors.rs`. -/
def CommandError.message : CommandError → String
  | .WrongType => "WRONGTYPE Operation against a key holding the wrong kind of value"
  | .InvalidInteger => "ERR value is not an integer or out of range"
  | .InvalidFloat => "ERR value is not a valid float"
  | .SyntaxError => "ERR syntax error"
  | .KeyNotFound => "ERR key not found"
  | .IndexOutOfRange => "ERR index out of range"
  | .InvalidRange => "ERR invalid range"
  | .InvalidPattern => "ERR invalid pattern"

/-- The server state from `src/database/mod.rs::Database`: per-database
keyspaces, per-database expiration tables (absolute deadlines, here in
milliseconds), and the single shared `current_db: Mutex<u8>` selector. -/
structure Database where
  data : List (Nat × List (String × RedisValue))
  data_expiration_time : List (Nat × List (String × Nat))
  current_db : Nat
  deriving DecidableEq, Repr

/-- `Database::new(db_num)`: one empty keyspace and expiration table per
index `0 .. db_num`, selector initialised to 0. -/
def Database.new (db_num : Nat) : Database :=
  { data := (List.range db_num).map (fun i => (i, []))
    data_expiration_time := (List.range db_num).map (fun i => (i, []))
    current_db := 0 }

/-- `Database::current_data()`: the keyspace of the selected database.
The source `unwrap`s the lookup; it cannot fail because `new` populates
every index in `0..db_num` and `select` validates its argument. -/
def Database.current_data (db : Database) : List (String × RedisValue) :=
  (assocGetN db.data db.current_db).getD []

/-- `Database::current_expiration()`: the expiration table of the selected
database. -/
def Database.current_expiration (db : Database) : List (String × Nat) :=
  (assocGetN db.data_expiration_time db.current_db).getD []

/-- Write a mutated keyspace back for the selected database (the in-place
`DashMap` mutation of the source, in state-passing form). -/
def Database.setCurrentData (db : Database) (ks : List (String × RedisValue)) :
    Database :=
  { db with data := assocSetN db.data db.current_db ks }

/-- Write a mutated expiration table back for the selected database. -/
def Database.setCurrentExpiration (db : Database) (em : List (String × Nat)) :
    Database :=
  { db with data_expiration_time := assocSetN db.data_expiration_time db.current_db em }

/-- Two's-complement wrap of a mathematical integer into the `i64` range:
the value Rust's `+` on `i64` produces in release builds (debug builds
abort on overflow instead). -/
def wrap64 (x : Int) : Int :=
  (x + 2 ^ 63) % 2 ^ 64 - 2 ^ 63

/-- Rust's `i64 as usize` cast (two's-complement reinterpretation on a
64-bit target). -/
def usizeOf (x : Int) : Nat :=
  (x % 2 ^ 64).toNat

/-- Decimal digit string to number; `none` unless non-empty and all ASCII
digits. -/
def digitsToNat : List Char → Option Nat
  | [] => none
  | cs =>
    if cs.all (fun c => '0' ≤ c ∧ c ≤ '9') then
      some (cs.foldl (fun n c => n * 10 + (c.toNat - '0'.toNat)) 0)
    else none

/-- Rust `str::parse::<i64>()`: optional sign, one or more ASCII digits,
and a 64-bit signed range check. -/
def parseI64 (s : String) : Option Int :=
  let cs := s.toList
  let (neg, rest) :=
    match cs with
    | '-' :: t => (true, t)
    | '+' :: t => (false, t)
    | t => (false, t)
  match digitsToNat rest with
  | none => none
  | some n =>
    let v : Int := if neg then -(n : Int) else (n : Int)
    if v < -(2 ^ 63) ∨ v > 2 ^ 63 - 1 then none else some v

/-- Checker mirroring the grammar of Rust's `str::parse::<f64>()`: optional
sign, then `inf`, `infinity` or `nan` (case-insensitive) or a decimal
mantissa (digits with at most one point, at least one digit) with an
optional exponent.  Only the success/failure of the parse is consumed by
the embedded operations. -/
def f64MantissaOk (cs : List Char) : Bool :=
  let parts := cs.foldr
    (fun c (acc : Bool × Nat × Nat) =>
      if c = '.' then (acc.1, acc.2.1, acc.2.2 + 1)
      else if '0' ≤ c ∧ c ≤ '9' then (acc.1, acc.2.1 + 1, acc.2.2)
      else (false, acc.2.1, acc.2.2))
    (true, 0, 0)
  parts.1 && decide (parts.2.1 ≥ 1) && decide (parts.2.2 ≤ 1)

/-- Exponent suffix check for `f64ParseOk`: optional sign then at least one
digit. -/
def f64ExponentOk (cs : List Char) : Bool :=
  let rest :=
    match cs with
    | '-' :: t => t
    | '+' :: t => t
    | t => t
  decide (rest ≠ []) && rest.all (fun c => decide ('0' ≤ c) && decide (c ≤ '9'))

/-- Success predicate of `v.parse::<f64>()` as used by `SortedSetOp::zadd`. -/
def f64ParseOk (s : String) : Bool :=
  let cs := (s.toList.map Char.toLower)
  let body :=
    match cs with
    | '-' :: t => t
    | '+' :: t => t
    | t => t
  if body = "inf".toList ∨ body = "infinity".toList ∨ body = "nan".toList then
    true
  else
    match body.splitOn 'e' with
    | [m] => f64MantissaOk m
    | [m, e] => f64MantissaOk m && f64ExponentOk e
    | _ => false

/-- `StringOp::get` from `src/database/strings.rs`: the stored string if the
key holds a `String` value, `None` otherwise (including on a wrong-tag
value).  It takes `&self` and reads the expiration table nowhere. -/
def StringOp.get (db : Database) (key : String) : Option String :=
  match mapGet db.current_data key with
  | some (RedisValue.str v) => some v
  | some _ => none
  | none => none

/-- `StringOp::set` from `src/database/strings.rs`: all three source
branches (existing string → `val.set`, wrong tag → re-insert, absent →
insert) amount to an insert-or-replace of a `String` value. -/
def StringOp.set (db : Database) (key : String) (value : String) : Database :=
  db.setCurrentData (mapInsert db.current_data key (RedisValue.str value))

/-- `StringOp::str_len` from `src/database/strings.rs`: byte length of a
held string, 0 on a wrong-tag value, 0 on an absent key. -/
def StringOp.str_len (db : Database) (key : String) : Nat :=
  match mapGet db.current_data key with
  | some (RedisValue.str v) => v.utf8ByteSize
  | some _ => 0
  | none => 0

/-- `Database::add_value` from `src/database/mod.rs` (the INCR-family
core): parse the held string as `i64`, add with Rust's unchecked `+`
(release-mode wrap, modelled by `wrap64`; debug builds abort), store the
decimal form, return the sum; `InvalidInteger` on an unparsable string,
`WrongType` on a wrong-tag value, and on an absent key store and return
the increment itself. -/
def Database.add_value (db : Database) (key : String) (val : Int) :
    Except CommandError Int × Database :=
  match mapGet db.current_data key with
  | some (RedisValue.str current_value) =>
    match parseI64 current_value with
    | some integer =>
      let new_integer := wrap64 (integer + val)
      (.ok new_integer,
        db.setCurrentData
          (mapInsert db.current_data key (RedisValue.str (toString new_integer))))
    | none => (.error .InvalidInteger, db)
  | some _ => (.error .WrongType, db)
  | none =>
    (.ok val,
      db.setCurrentData (mapInsert db.current_data key (RedisValue.str (toString val))))

/-- `RedisHash::hincrby` from `src/data_structures/hash.rs`: absent field
counts as 0, a non-integer field fails, and the addition is Rust's
unchecked `+` on `i64` (release-mode wrap via `wrap64`; debug builds
abort).  Returns the new value together with the updated field map. -/
def RedisHash.hincrby (fields : List (String × String)) (field : String)
    (value : Int) : Except CommandError (Int × List (String × String)) :=
  match mapGet fields field with
  | some existing =>
    match parseI64 existing with
    | some current_value =>
      let new_value := wrap64 (current_value + value)
      .ok (new_value, mapInsert fields field (toString new_value))
    | none => .error .InvalidInteger
  | none =>
    let new_value := wrap64 (0 + value)
    .ok (new_value, mapInsert fields field (toString new_value))

/-- `SetOp::sadd` from `src/database/sets.rs`: on a held `Set`, insert each
member counting the new ones; on a wrong-tag value do nothing and return
0; on an absent key create a fresh set from the members (counting
distinct ones) and insert it. -/
def SetOp.sadd (db : Database) (key : String) (values : List String) :
    Nat × Database :=
  match mapGet db.current_data key with
  | some (RedisValue.set s) =>
    let folded := values.foldl
      (fun (acc : List String × Nat) val =>
        if acc.1.contains val then acc else (acc.1 ++ [val], acc.2 + 1))
      (s, 0)
    (folded.2, db.setCurrentData (mapInsert db.current_data key (RedisValue.set folded.1)))
  | some _ => (0, db)
  | none =>
    let folded := values.foldl
      (fun (acc : List String × Nat) val =>
        if acc.1.contains val then acc else (acc.1 ++ [val], acc.2 + 1))
      ([], 0)
    (folded.2, db.setCurrentData (mapInsert db.current_data key (RedisValue.set folded.1)))

/-- `SetOp::smembers` from `src/database/sets.rs`: the member list of a held
set, `WrongType` on a wrong-tag value and also on an absent key. -/
def SetOp.smembers (db : Database) (key : String) :
    Except CommandError (List String) :=
  match mapGet db.current_data key with
  | some (RedisValue.set s) => .ok s
  | some _ => .error .WrongType
  | none => .error .WrongType

/-- `ListOp::lpush` from `src/database/lists.rs`: push each value at the
head of a held list and reply with the number of pushed values; on a
wrong-tag value or an absent key do nothing and return 0 (no list is
created). -/
def ListOp.lpush (db : Database) (key : String) (values : List String) :
    Nat × Database :=
  match mapGet db.current_data key with
  | some (RedisValue.list items) =>
    let items := values.foldl (fun acc v => v :: acc) items
    (values.length, db.setCurrentData (mapInsert db.current_data key (RedisValue.list items)))
  | some _ => (0, db)
  | none => (0, db)

/-- `ListOp::rpush` from `src/database/lists.rs`: push each value at the
tail of a held list and reply with the number of pushed values; on a
wrong-tag value or an absent key do nothing and return 0 (no list is
created, unlike `SetOp::sadd`). -/
def ListOp.rpush (db : Database) (key : String) (values : List String) :
    Nat × Database :=
  match mapGet db.current_data key with
  | some (RedisValue.list items) =>
    (values.length,
      db.setCurrentData (mapInsert db.current_data key (RedisValue.list (items ++ values))))
  | some _ => (0, db)
  | none => (0, db)

/-- `RedisSortedSet::zadd` from `src/data_structures/sorted_set.rs`:
replace any existing score for the member and (re-)insert it.  The
synchronized `(score, member)` rank index is omitted because no claim
consumes rank or range queries. -/
def RedisSortedSet.zadd (members : List (String × String)) (member : String)
    (score : String) : List (String × String) :=
  mapInsert members member score

/-- One step of the `filter(...).count()` walk inside `SortedSetOp::zadd`:
a pair whose score text parses as `f64` is inserted and counted; any other
pair is skipped. -/
def zaddStep (acc : List (String × String) × Nat) (p : String × String) :
    List (String × String) × Nat :=
  if f64ParseOk p.2 then (RedisSortedSet.zadd acc.1 p.1 p.2, acc.2 + 1) else acc

/-- `SortedSetOp::zadd` from `src/database/zsets.rs`: on a held sorted set,
walk the `(member, score)` pairs, inserting each pair whose score text
parses as `f64` and counting exactly those pairs (whether or not the
member was already present); on a wrong-tag value or an absent key do
nothing and return 0 (no sorted set is created). -/
def SortedSetOp.zadd (db : Database) (key : String)
    (pair : List (String × String)) : Nat × Database :=
  match mapGet db.current_data key with
  | some (RedisValue.zset sorted_set) =>
    let folded := pair.foldl zaddStep (sorted_set, 0)
    (folded.2,
      db.setCurrentData (mapInsert db.current_data key (RedisValue.zset folded.1)))
  | some _ => (0, db)
  | none => (0, db)

/-- `KeyOp::ttl` from `src/database/keys.rs`: consult only the expiration
table of the selected database.  No entry → −1 (whether or not the key
exists in the keyspace); an entry whose deadline is not in the future →
−2 (`duration_since` fails; nothing is deleted); otherwise the remaining
whole seconds, floored (`Duration::as_secs` on a millisecond model).
`now` is the `SystemTime::now()` the source reads internally. -/
def KeyOp.ttl (db : Database) (key : String) (now : Nat) : Int :=
  match mapGet db.current_expiration key with
  | some deadline =>
    if now ≤ deadline then Int.ofNat ((deadline - now) / 1000) else -2
  | none => -1

/-- `KeyOp::expire` from `src/database/keys.rs`: store `now + seconds`
as the key's absolute deadline in the selected database's expiration
table (the `checked_add` overflow branch is unreachable in the `Nat`
time model). -/
def KeyOp.expire (db : Database) (key : String) (seconds : Nat) (now : Nat) :
    Database :=
  db.setCurrentExpiration
    (mapInsert db.current_expiration key (now + seconds * 1000))

/-- `KeyOp::flush_all` from `src/database/keys.rs`: despite its name it
clears only the keyspace and expiration table of the currently selected
database. -/
def KeyOp.flush_all (db : Database) : Database :=
  (db.setCurrentData []).setCurrentExpiration []

/-- `KeyOp::flush_db` from `src/database/keys.rs`: despite its name it
iterates over every database index and clears every keyspace and every
expiration table. -/
def KeyOp.flush_db (db : Database) : Database :=
  { db with
    data := db.data.map (fun p => (p.1, []))
    data_expiration_time := db.data_expiration_time.map (fun p => (p.1, [])) }

/-- `KeyOp::select` from `src/database/keys.rs`: ignore an index that is
not below the number of databases, otherwise overwrite the single shared
`current_db` selector of the `Database`. -/
def KeyOp.select (db : Database) (idx : Nat) : Database :=
  if db.data.length ≤ idx then db else { db with current_db := idx }

/-- `RedisList::range` from `src/data_structures/list.rs`.  Negative
indices wrap by adding the length; `start_idx` is `actual_start.max(0) as
usize`; `end_idx` is `(actual_end + 1).min(len) as usize` where the `+ 1`
is Rust's unchecked `i64` addition (release-mode wrap via `wrap64`; debug
builds abort on `end = i64::MAX`).  When `start_idx < end_idx` the source
calls `VecDeque::range(start_idx..end_idx)`, which aborts the process if
`end_idx` exceeds the length: that abort is modelled as `none`. -/
def RedisList.range (items : List String) (start : Int) (endv : Int) :
    Option (List String) :=
  let len : Int := items.length
  let actual_start := if start < 0 then len + start else start
  let actual_end := if endv < 0 then len + endv else endv
  let start_idx : Nat := usizeOf (max actual_start 0)
  let end_idx : Nat := usizeOf (min (wrap64 (actual_end + 1)) len)
  if end_idx ≤ start_idx then some []
  else if items.length < end_idx then none
  else some ((items.drop start_idx).take (end_idx - start_idx))

/-- `RedisList::trim` from `src/data_structures/list.rs`: clear when
`actual_start > actual_end` or when the normalized window is empty,
otherwise keep `start_idx..end_idx`, with the same unchecked `+ 1` and the
same aborting `VecDeque::range` call as `RedisList.range` (abort modelled
as `none`). -/
def RedisList.trim (items : List String) (start : Int) (endv : Int) :
    Option (List String) :=
  let len : Int := items.length
  let actual_start := if start < 0 then len + start else start
  let actual_end := if endv < 0 then len + endv else endv
  if actual_end < actual_start then some []
  else
    let start_idx : Nat := usizeOf (max actual_start 0)
    let end_idx : Nat := usizeOf (min (wrap64 (actual_end + 1)) len)
    if end_idx ≤ start_idx then some []
    else if items.length < end_idx then none
    else some ((items.drop start_idx).take (end_idx - start_idx))

/-- `ListOp::lrange` from `src/database/lists.rs`: range over a held list
(propagating the abort marker of `RedisList.range`), and `Ok(vec![])` both
on a wrong-tag value and on an absent key. -/
def ListOp.lrange (db : Database) (key : String) (start : Int) (endv : Int) :
    Option (Except CommandError (List String)) :=
  match mapGet db.current_data key with
  | some (RedisValue.list items) =>
    match RedisList.range items start endv with
    | some r => some (.ok r)
    | none => none
  | some _ => some (.ok [])
  | none => some (.ok [])

/-- `format_integer` from `src/commands/command_helper.rs`. -/
def format_integer (value : Int) : String :=
  ":" ++ toString value ++ "\r\n"

/-- `format_error` from `src/commands/command_helper.rs`: every error
frame, whatever the error's class token, is written with the fixed
`-ERR ` preamble in front of the error's display text. -/
def format_error (e : CommandError) : String :=
  "-ERR " ++ e.message ++ "\r\n"

/-- `format_bulk_string` from `src/commands/command_helper.rs`. -/
def format_bulk_string (value : String) : String :=
  "$" ++ toString value.utf8ByteSize ++ "\r\n" ++ value ++ "\r\n"

/-- `format_null` from `src/commands/command_helper.rs`. -/
def format_null : String :=
  "$-1\r\n"

/-- `format_simple_string` from `src/commands/command_helper.rs`. -/
def format_simple_string (value : String) : String :=
  "+" ++ value ++ "\r\n"

/-- `format_array_bytes` from `src/commands/command_helper.rs`: the
element count header followed by the given element byte strings
concatenated as they are (the caller must pre-format them; several
callers, such as `lrange`, do not). -/
def format_array_bytes (elements : List String) : String :=
  "*" ++ toString elements.length ++ "\r\n" ++ String.join elements

/-- The SADD handler from `src/commands/sets.rs`: reply frame plus the
resulting state. -/
def sadd_cmd (db : Database) (key : String) (values : List String) :
    String × Database :=
  let r := SetOp.sadd db key values
  (format_integer (Int.ofNat r.1), r.2)

/-- The SMEMBERS handler from `src/commands/sets.rs`: on success the
members are passed to `format_array_bytes` raw; on failure the error is
formatted with `format_error`. -/
def smembers_cmd (db : Database) (key : String) : String :=
  match SetOp.smembers db key with
  | .ok value => format_array_bytes value
  | .error e => format_error e

/-- The GET handler from `src/commands/strings.rs`: bulk string of the
held value or the null bulk string.  It takes the database by shared
reference and can mutate nothing. -/
def get_cmd (db : Database) (key : String) : String :=
  match StringOp.get db key with
  | some value => format_bulk_string value
  | none => format_null

/-- The STRLEN handler from `src/commands/strings.rs`. -/
def strlen_cmd (db : Database) (key : String) : String :=
  format_integer (Int.ofNat (StringOp.str_len db key))

/-- The LPUSH handler from `src/commands/lists.rs`. -/
def lpush_cmd (db : Database) (key : String) (values : List String) :
    String × Database :=
  let r := ListOp.lpush db key values
  (format_integer (Int.ofNat r.1), r.2)

/-- The RPUSH handler from `src/commands/lists.rs`. -/
def rpush_cmd (db : Database) (key : String) (values : List String) :
    String × Database :=
  let r := ListOp.rpush db key values
  (format_integer (Int.ofNat r.1), r.2)

/-- The LRANGE handler from `src/commands/lists.rs` (indices already
parsed): the returned members are passed to `format_array_bytes` raw.
`none` propagates the process abort of `RedisList.range`. -/
def lrange_cmd (db : Database) (key : String) (start : Int) (endv : Int) :
    Option String :=
  match ListOp.lrange db key start endv with
  | some (.ok val) => some (format_array_bytes val)
  | some (.error e) => some (format_error e)
  | none => none

/-- The FLUSHALL handler from `src/commands/keys.rs`: calls
`KeyOp::flush_all` and replies OK. -/
def flushall_cmd (db : Database) : String × Database :=
  (format_simple_string "OK", KeyOp.flush_all db)

/-- The FLUSHDB handler from `src/commands/keys.rs`: calls
`KeyOp::flush_db` and replies OK. -/
def flushdb_cmd (db : Database) : String × Database :=
  (format_simple_string "OK", KeyOp.flush_db db)

/-- The TTL handler from `src/commands/keys.rs`. -/
def ttl_cmd (db : Database) (key : String) (now : Nat) : String :=
  format_integer (KeyOp.ttl db key now)

/-- The SELECT handler from `src/commands/connection.rs`: parse the index
as a `u8`, accept it only when at most 15, and apply `KeyOp::select` on
the shared `Database`; otherwise reply via
`format_error("ERR invalid DB index")`, whose fixed `-ERR ` preamble on
top of the message's own `ERR ` token yields the doubled
`-ERR ERR invalid DB index\r\n`, and leave the state alone.  A
per-connection database field exists nowhere: the handler mutates the one
selector shared by every connection. -/
def select_cmd (db : Database) (db_index : String) : String × Database :=
  match parseI64 db_index with
  | some n =>
    if 0 ≤ n ∧ n ≤ 15 then
      (format_simple_string "OK", KeyOp.select db n.toNat)
    else ("-ERR ERR invalid DB index\r\n", db)
  | none => ("-ERR ERR invalid DB index\r\n", db)

/-- ASCII decimal parse over raw bytes (the `line.parse::<i64>()` of the
bulk-string header in `src/networking/resp.rs`): optional sign bytes
`-`/`+`, then ASCII digit bytes, with the `i64` range check. -/
def parseI64bytes (line : List Nat) : Option Int :=
  let (neg, rest) :=
    match line with
    | 45 :: t => (true, t)
    | 43 :: t => (false, t)
    | t => (false, t)
  if rest = [] ∨ ¬ rest.all (fun b => 48 ≤ b ∧ b ≤ 57) then none
  else
    let n : Nat := rest.foldl (fun acc b => acc * 10 + (b - 48)) 0
    let v : Int := if neg then -(n : Int) else (n : Int)
    if v < -(2 ^ 63) ∨ v > 2 ^ 63 - 1 then none else some v

/-- Continuation-byte test for the UTF-8 validator (`0x80 ≤ b < 0xC0`). -/
def utf8Cont (b : Nat) : Bool :=
  128 ≤ b ∧ b < 192

/-- UTF-8 validity of a byte sequence, mirroring the check that Rust's
`String::from_utf8` performs inside `RespParser::read_bulk_string`
(well-formed sequences only: no overlong forms, no surrogates, nothing
above U+10FFFF). -/
def utf8Valid : List Nat → Bool
  | [] => true
  | b :: rest =>
    if b < 128 then utf8Valid rest
    else if 194 ≤ b ∧ b ≤ 223 then
      match rest with
      | c1 :: r => utf8Cont c1 && utf8Valid r
      | [] => false
    else if b = 224 then
      match rest with
      | c1 :: c2 :: r => (160 ≤ c1 ∧ c1 < 192 : Bool) && utf8Cont c2 && utf8Valid r
      | _ => false
    else if (225 ≤ b ∧ b ≤ 236) ∨ (b = 238 ∨ b = 239) then
      match rest with
      | c1 :: c2 :: r => utf8Cont c1 && utf8Cont c2 && utf8Valid r
      | _ => false
    else if b = 237 then
      match rest with
      | c1 :: c2 :: r => (128 ≤ c1 ∧ c1 < 160 : Bool) && utf8Cont c2 && utf8Valid r
      | _ => false
    else if b = 240 then
      match rest with
      | c1 :: c2 :: c3 :: r =>
        (144 ≤ c1 ∧ c1 < 192 : Bool) && utf8Cont c2 && utf8Cont c3 && utf8Valid r
      | _ => false
    else if 241 ≤ b ∧ b ≤ 243 then
      match rest with
      | c1 :: c2 :: c3 :: r => utf8Cont c1 && utf8Cont c2 && utf8Cont c3 && utf8Valid r
      | _ => false
    else if b = 244 then
      match rest with
      | c1 :: c2 :: c3 :: r =>
        (128 ≤ c1 ∧ c1 < 144 : Bool) && utf8Cont c2 && utf8Cont c3 && utf8Valid r
      | _ => false
    else false

/-- Decoder outcomes of `RespParser::read_bulk_string`: a bulk string
(`none` payload is the null bulk string) or the I/O error message the
source raises, which terminates the connection. -/
def Resp.read_bulk_string (line : List Nat) (stream : List Nat) :
    Except String (Option (List Nat)) :=
  match parseI64bytes line with
  | none => .error "Invalid bulk string length"
  | some length =>
    if length = -1 then .ok none
    else if length < 0 then .error "Nagative bulk string length"
    else
      let n := length.toNat
      if stream.length < n + 2 then .error "Unexpected end of stream"
      else
        let buffer := stream.take (n + 2)
        if buffer.getD n 0 ≠ 13 ∨ buffer.getD (n + 1) 0 ≠ 10 then
          .error "Invalid bulk string terminator"
        else
          let data := buffer.take n
          if utf8Valid data then .ok (some data)
          else .error "Invalid UTF-8 in bulk string"

/-- Reply-classification helper: whether frame `s` begins with the byte
sequence of `t` (the error-class token at the start of an error frame). -/
def beginsWith (s t : String) : Bool :=
  t.toList.isPrefixOf s.toList

/-- Example state for C1: one database whose key `"k"` holds a hash (the
wrong tag for SADD, LPUSH, STRLEN and GET alike). -/
def exDb1 : Database :=
  { data := [(0, [("k", RedisValue.hash [("f", "1")])])]
    data_expiration_time := [(0, [])]
    current_db := 0 }

/-- Example state for the C1 counterexample: key `"k"` holds a plain
string, which is not among SADD's accepted tags. -/
def exDb1cx : Database :=
  { data := [(0, [("k", RedisValue.str "v")])]
    data_expiration_time := [(0, [])]
    current_db := 0 }

/-- Example state for C2: key `"k"` holds `"v"` and carries an expiration
entry whose deadline (time 0) is already past. -/
def exDb2 : Database :=
  { data := [(0, [("k", RedisValue.str "v")])]
    data_expiration_time := [(0, [("k", 0)])]
    current_db := 0 }

/-- Example state for C3: two databases with one key each, database 0
selected. -/
def exDb3 : Database :=
  { data := [(0, [("a", RedisValue.str "1")]), (1, [("b", RedisValue.str "2")])]
    data_expiration_time := [(0, [("a", 7000)]), (1, [("b", 9000)])]
    current_db := 0 }

/-- Example state for C6: key `"z"` holds a sorted set that already
contains member `"a"` (score text `"1"`). -/
def exDb6 : Database :=
  { data := [(0, [("z", RedisValue.zset [("a", "1")])])]
    data_expiration_time := [(0, [])]
    current_db := 0 }

/-- Example state for C9: key `"x"` lives only in database 0, and two
databases exist.  The structure is the one shared `Database` behind the
`Arc<Database>` that every connection clones. -/
def exDb9 : Database :=
  { data := [(0, [("x", RedisValue.str "v0")]), (1, [])]
    data_expiration_time := [(0, []), (1, [])]
    current_db := 0 }

/-- Example state for C10: key `"L"` holds a one-element list. -/
def exDb10 : Database :=
  { data := [(0, [("L", RedisValue.list ["x"])])]
    data_expiration_time := [(0, [])]
    current_db := 0 }

/-- Example state for C4: key `"c"` holds the decimal text of `i64::MAX`. -/
def exDb4 : Database :=
  StringOp.set (Database.new 16) "c" "9223372036854775807"

/-- Lookup after insert-or-replace finds the inserted value. -/
theorem mapGet_mapInsert {α : Type} (m : List (String × α)) (k : String) (v : α) :
    mapGet (mapInsert m k v) k = some v := by
  induction m with
  | nil => simp [mapInsert, mapGet]
  | cons p t ih =>
    obtain ⟨k', v'⟩ := p
    by_cases h : k' = k
    · simp [mapInsert, mapGet, h]
    · simp [mapInsert, mapGet, h, ih]

/-- Replacing the table stored at an index that is present yields a state
where that index holds the replacement. -/
theorem assocGetN_assocSetN {α : Type} (m : List (Nat × α)) (k : Nat)
    (v w : α) (h : assocGetN m k = some w) :
    assocGetN (assocSetN m k v) k = some v := by
  induction m with
  | nil => simp [assocGetN] at h
  | cons p t ih =>
    obtain ⟨k', v'⟩ := p
    by_cases hk : k' = k
    · simp [assocSetN, assocGetN, hk]
    · simp [assocSetN, assocGetN, hk] at h ⊢
      exact ih h

/-- The zadd walk counts exactly the pairs it inserts: those whose score
text parses, whatever starting set and counter it is run from. -/
theorem zadd_foldl_count (pairs : List (String × String)) :
    ∀ (z : List (String × String)) (c : Nat),
      (pairs.foldl zaddStep (z, c)).2 =
        c + (pairs.filter (fun p => f64ParseOk p.2)).length := by
  induction pairs with
  | nil => intro z c; simp
  | cons p t ih =>
    intro z c
    by_cases hp : f64ParseOk p.2 = true
    · have hstep : zaddStep (z, c) p = (RedisSortedSet.zadd z p.1 p.2, c + 1) := by
        simp [zaddStep, hp]
      have hfil : List.filter (fun p => f64ParseOk p.2) (p :: t) =
          p :: List.filter (fun p => f64ParseOk p.2) t := by
        simp [List.filter_cons, hp]
      rw [List.foldl_cons, hstep, ih (RedisSortedSet.zadd z p.1 p.2) (c + 1), hfil]
      simp [List.length_cons]
      omega
    · have hstep : zaddStep (z, c) p = (z, c) := by simp [zaddStep, hp]
      have hfil : List.filter (fun p => f64ParseOk p.2) (p :: t) =
          List.filter (fun p => f64ParseOk p.2) t := by
        simp [List.filter_cons, hp]
      rw [List.foldl_cons, hstep, ih z c, hfil]

/-- C1 (counterexample): dispatching SADD on key `"k"` while it holds a
string — a tag outside SADD's accepted set — produces the reply `:0\r\n`,
which does not begin with `-WRONGTYPE` as the claim requires (the keyspace
is indeed left untouched). -/
theorem c1_wrongtype_counterexample :
    sadd_cmd exDb1cx "k" ["a"] = (":0\r\n", exDb1cx) ∧
    beginsWith ":0\r\n" "-WRONGTYPE" = false := by
  constructor
  · decide
  · decide

/-- C1 (amended): on a key holding a wrong-tag value, SADD, LPUSH, STRLEN
and GET leave the keyspace byte-identical but do not reply `WRONGTYPE`:
SADD and LPUSH reply integer 0, STRLEN replies integer 0, GET replies the
null bulk string; and where an operation does surface `WrongType`, the
frame is written by `format_error` and begins `-ERR WRONGTYPE`, never
`-WRONGTYPE`. -/
theorem c1_wrongtype_amended (db : Database) (k : String)
    (h : List (String × String)) (vals : List String)
    (hmem : mapGet db.current_data k = some (RedisValue.hash h)) :
    sadd_cmd db k vals = (format_integer 0, db) ∧
    lpush_cmd db k vals = (format_integer 0, db) ∧
    strlen_cmd db k = format_integer 0 ∧
    get_cmd db k = format_null ∧
    beginsWith (format_error CommandError.WrongType) "-ERR WRONGTYPE" = true ∧
    beginsWith (format_error CommandError.WrongType) "-WRONGTYPE" = false := by
  refine ⟨?_, ?_, ?_, ?_, by decide, by decide⟩
  · simp [sadd_cmd, SetOp.sadd, hmem]
  · simp [lpush_cmd, ListOp.lpush, hmem]
  · simp [strlen_cmd, StringOp.str_len, hmem]
  · simp [get_cmd, StringOp.get, hmem]

/-- C1 (witness): the amended statement instantiated on `exDb1`, whose key
`"k"` holds a hash. -/
theorem c1_wrongtype_amended_witness :
    sadd_cmd exDb1 "k" ["a"] = (format_integer 0, exDb1) ∧
    lpush_cmd exDb1 "k" ["a"] = (format_integer 0, exDb1) ∧
    strlen_cmd exDb1 "k" = format_integer 0 ∧
    get_cmd exDb1 "k" = format_null ∧
    beginsWith (format_error CommandError.WrongType) "-ERR WRONGTYPE" = true ∧
    beginsWith (format_error CommandError.WrongType) "-WRONGTYPE" = false :=
  c1_wrongtype_amended exDb1 "k" [("f", "1")] ["a"] (by decide)

/-- C2 (counterexample): in `exDb2` the key `"k"` has an expiration entry
with deadline 0, which is ≤ any current time, yet GET replies the stored
value `"v"` as a bulk string rather than the null bulk string, and the
expiration entry is consulted nowhere. -/
theorem c2_expired_get_counterexample :
    mapGet exDb2.current_expiration "k" = some 0 ∧
    get_cmd exDb2 "k" = format_bulk_string "v" ∧
    get_cmd exDb2 "k" ≠ format_null := by
  refine ⟨by decide, by decide, by decide⟩

/-- C2 (amended): no access performs lazy expiration.  For any state in
which key `k` holds string `v` and carries an expiration entry whose
deadline has passed, GET still returns the stored value (its handler takes
the database by shared reference, so the keyspace and expiration tables
are untouched), and TTL merely reports −2 for such a key without deleting
anything. -/
theorem c2_no_lazy_expiration_amended (db : Database) (k v : String)
    (d now : Nat) (hval : mapGet db.current_data k = some (RedisValue.str v))
    (hexp : mapGet db.current_expiration k = some d) (hpast : d < now) :
    StringOp.get db k = some v ∧
    get_cmd db k = format_bulk_string v ∧
    KeyOp.ttl db k now = -2 := by
  refine ⟨?_, ?_, ?_⟩
  · simp [StringOp.get, hval]
  · simp [get_cmd, StringOp.get, hval]
  · simp [KeyOp.ttl, hexp]
    omega

/-- C2 (witness): the amended statement instantiated on `exDb2` at time
100 (deadline 0 has passed). -/
theorem c2_no_lazy_expiration_amended_witness :
    StringOp.get exDb2 "k" = some "v" ∧
    get_cmd exDb2 "k" = format_bulk_string "v" ∧
    KeyOp.ttl exDb2 "k" 100 = -2 :=
  c2_no_lazy_expiration_amended exDb2 "k" "v" 0 100 (by decide) (by decide)
    (by decide)

/-- C3: the two flush operations are swapped with respect to the claim
(and to the command comments in `src/commands/mod.rs`).  On `exDb3`
(database 0 selected, one key in each of databases 0 and 1), FLUSHALL
clears only the selected database — key `"b"` of database 1 and its
expiration entry survive — while FLUSHDB clears every database. -/
theorem c3_flush_swapped :
    (flushall_cmd exDb3).1 = "+OK\r\n" ∧
    assocGetN (flushall_cmd exDb3).2.data 0 = some [] ∧
    assocGetN (flushall_cmd exDb3).2.data 1 = some [("b", RedisValue.str "2")] ∧
    assocGetN (flushall_cmd exDb3).2.data_expiration_time 1 = some [("b", 9000)] ∧
    (flushdb_cmd exDb3).1 = "+OK\r\n" ∧
    assocGetN (flushdb_cmd exDb3).2.data 0 = some [] ∧
    assocGetN (flushdb_cmd exDb3).2.data 1 = some [] ∧
    assocGetN (flushdb_cmd exDb3).2.data_expiration_time 0 = some [] ∧
    assocGetN (flushdb_cmd exDb3).2.data_expiration_time 1 = some [] := by
  refine ⟨by decide, by decide, by decide, by decide, by decide, by decide,
    by decide, by decide, by decide⟩

/-- C4: the INCR-family addition carries no overflow check.  On a key
holding `i64::MAX`, `Database::add_value` with increment 1 returns the
wrapped value −2⁶³ and stores its decimal form (release semantics; a
debug build aborts on the same input), instead of replying the
integer-range error and leaving the value unchanged; `RedisHash::hincrby`
behaves the same way on a hash field. -/
theorem c4_incr_overflow_unchecked :
    (exDb4.add_value "c" 1).1 = Except.ok (-9223372036854775808) ∧
    StringOp.get (exDb4.add_value "c" 1).2 "c" = some "-9223372036854775808" ∧
    RedisHash.hincrby [("f", "9223372036854775807")] "f" 1 =
      Except.ok (-9223372036854775808, [("f", "-9223372036854775808")]) := by
  refine ⟨rfl, by decide, rfl⟩

/-- C5: `ListOp::rpush` does not create a list on an absent key.  On a
fresh 16-database state, `RPUSH L a b c` replies `:0\r\n` (not `:3\r\n`)
and leaves the state byte-identical, and the following `LRANGE L 0 -1`
replies the empty array `*0\r\n` rather than the three pushed elements
(LPUSH behaves the same way). -/
theorem c5_rpush_absent_noop :
    rpush_cmd (Database.new 16) "L" ["a", "b", "c"] = (":0\r\n", Database.new 16) ∧
    lpush_cmd (Database.new 16) "L" ["a", "b", "c"] = (":0\r\n", Database.new 16) ∧
    lrange_cmd (Database.new 16) "L" 0 (-1) = some "*0\r\n" := by
  refine ⟨by decide, by decide, by decide⟩

/-- C6 (counterexample): on `exDb6`, whose sorted set at `"z"` already
contains member `"a"`, `ZADD z 2 a` merely updates the score yet replies
1, where the claim requires the count of newly added members, 0; and on
an absent key `ZADD` replies 0 and creates no sorted set, where the claim
requires it to count all distinct new members. -/
theorem c6_zadd_count_counterexample :
    mapGet exDb6.current_data "z" = some (RedisValue.zset [("a", "1")]) ∧
    (SortedSetOp.zadd exDb6 "z" [("a", "2")]).1 = 1 ∧
    SortedSetOp.zadd (Database.new 16) "z" [("a", "1")] = (0, Database.new 16) := by
  refine ⟨by decide, by decide, by decide⟩

/-- C6 (amended): ZADD on a key holding a sorted set replies the number of
`(member, score)` pairs whose score text parses as a float — updates to
already-present members are counted exactly like new members — and ZADD on
an absent key replies 0 and does not create a sorted set. -/
theorem c6_zadd_amended (db : Database) (key : String)
    (pairs : List (String × String)) :
    (∀ z, mapGet db.current_data key = some (RedisValue.zset z) →
      (SortedSetOp.zadd db key pairs).1 =
        (pairs.filter (fun p => f64ParseOk p.2)).length) ∧
    (mapGet db.current_data key = none →
      SortedSetOp.zadd db key pairs = (0, db)) := by
  constructor
  · intro z hmem
    simp only [SortedSetOp.zadd, hmem]
    rw [zadd_foldl_count pairs z 0]
    exact Nat.zero_add _
  · intro hmem
    simp [SortedSetOp.zadd, hmem]

/-- C6 (witness): the amended statement instantiated on `exDb6` with a
score update of the present member `"a"`, a pair whose score text
`"oops"` does not parse and is skipped uncounted, and a new member — the
reply counts the two parseable pairs — and on a fresh state, where ZADD
replies 0 without creating anything. -/
theorem c6_zadd_amended_witness :
    (SortedSetOp.zadd exDb6 "z" [("a", "2"), ("b", "oops"), ("c", "3")]).1 = 2 ∧
    SortedSetOp.zadd (Database.new 16) "w" [("a", "2")] = (0, Database.new 16) := by
  constructor
  · rw [(c6_zadd_amended exDb6 "z" [("a", "2"), ("b", "oops"), ("c", "3")]).1
      [("a", "1")] (by decide)]
    decide
  · exact (c6_zadd_amended (Database.new 16) "w" [("a", "2")]).2 (by decide)

/-- C7 (counterexample): TTL on a key that is absent from both the
keyspace and the expiration table returns −1, where the claim requires −2
for an absent key. -/
theorem c7_ttl_absent_counterexample :
    mapGet (Database.new 16).current_data "missing" = none ∧
    KeyOp.ttl (Database.new 16) "missing" 0 = -1 ∧
    KeyOp.ttl (Database.new 16) "missing" 0 ≠ -2 := by
  refine ⟨by decide, by decide, by decide⟩

/-- C7 (amended): TTL consults only the expiration table: it returns −1
when the key has no expiration entry, whether or not the key exists in the
keyspace; −2 when an expiration entry exists whose deadline is strictly in
the past; and otherwise the floor of the remaining whole seconds. -/
theorem c7_ttl_amended (db : Database) (k : String) (now : Nat) :
    (mapGet db.current_expiration k = none → KeyOp.ttl db k now = -1) ∧
    (∀ d, mapGet db.current_expiration k = some d → d < now →
      KeyOp.ttl db k now = -2) ∧
    (∀ d, mapGet db.current_expiration k = some d → now ≤ d →
      KeyOp.ttl db k now = Int.ofNat ((d - now) / 1000)) := by
  refine ⟨?_, ?_, ?_⟩
  · intro h; simp [KeyOp.ttl, h]
  · intro d h hlt; simp [KeyOp.ttl, h]; omega
  · intro d h hle; simp [KeyOp.ttl, h, hle]

/-- C7 (witness): the amended statement instantiated on concrete states:
no entry → −1; an entry 2500 ms in the future → 2 (floored seconds); an
entry in the past → −2. -/
theorem c7_ttl_amended_witness :
    KeyOp.ttl (Database.new 16) "k" 0 = -1 ∧
    KeyOp.ttl exDb2 "k" 100 = -2 ∧
    KeyOp.ttl exDb3 "a" 4500 = Int.ofNat 2 :=
  ⟨(c7_ttl_amended (Database.new 16) "k" 0).1 (by decide),
    (c7_ttl_amended exDb2 "k" 100).2.1 0 (by decide) (by decide),
    (c7_ttl_amended exDb3 "a" 4500).2.2 7000 (by decide) (by decide)⟩

/-- Element lookup with default past the left part of an append lands in
the right part. -/
theorem getD_append_len {α : Type} (l l' : List α) (d : α) (i : Nat) :
    (l ++ l').getD (l.length + i) d = l'.getD i d := by
  induction l with
  | nil => simp
  | cons a t ih =>
    have hlen : (a :: t).length + i = (t.length + i) + 1 := by
      simp [List.length_cons]; omega
    rw [hlen]
    simpa using ih

/-- C8 (counterexample): the byte 0xFF is not valid UTF-8, so a bulk
string of declared length 1 carrying it is rejected by
`RespParser::read_bulk_string` with a framing error that terminates the
connection — `SET K B` with this payload never reaches the store, where
the claim requires every byte sequence to round-trip. -/
theorem c8_nonutf8_rejected_counterexample :
    Resp.read_bulk_string [49] [255, 13, 10] =
      Except.error "Invalid UTF-8 in bulk string" ∧
    utf8Valid [255] = false := by
  exact ⟨rfl, by decide⟩

/-- C8 (amended): the round-trip holds exactly for UTF-8-valid payloads.
A bulk string whose header parses to the payload's length and whose
payload `B` is valid UTF-8 decodes to exactly `B` — CR, LF and NUL bytes
included, since the decoder reads a counted payload — and the store
returns byte-identical values: `SET K B` then `GET K` yields `B` for any
state whose selected database exists.  Payloads that are not valid UTF-8
are rejected at the decoder (the counterexample), so they never reach the
store. -/
theorem c8_roundtrip_amended :
    (∀ (line B : List Nat),
      parseI64bytes line = some (Int.ofNat B.length) →
      utf8Valid B = true →
      Resp.read_bulk_string line (B ++ [13, 10]) = .ok (some B)) ∧
    (∀ (db : Database) (k v : String) (ks : List (String × RedisValue)),
      assocGetN db.data db.current_db = some ks →
      StringOp.get (StringOp.set db k v) k = some v) := by
  constructor
  · intro line B hline hutf
    unfold Resp.read_bulk_string
    rw [hline]
    simp only [Int.ofNat_eq_natCast]
    have h1 : ¬ ((B.length : Int) = -1) := by omega
    have h2 : ¬ ((B.length : Int) < 0) := by omega
    rw [if_neg h1, if_neg h2]
    have hn : ((B.length : Int)).toNat = B.length := by omega
    rw [hn]
    have h3 : ¬ ((B ++ [13, 10]).length < B.length + 2) := by simp
    rw [if_neg h3]
    have htake : (B ++ [13, 10]).take (B.length + 2) = B ++ [13, 10] := by
      apply List.take_of_length_le; simp
    rw [htake]
    have hg1 : (B ++ [13, 10]).getD B.length 0 = 13 := by
      simpa using getD_append_len B [13, 10] 0 0
    have hg2 : (B ++ [13, 10]).getD (B.length + 1) 0 = 10 := by
      simpa using getD_append_len B [13, 10] 0 1
    rw [if_neg (fun h => h.elim (fun ha => ha hg1) (fun hb => hb hg2))]
    rw [List.take_left B [13, 10], hutf]
    simp
  · intro db k v ks hdb
    unfold StringOp.get StringOp.set
    unfold Database.current_data Database.setCurrentData
    simp only [hdb, Option.getD_some]
    rw [assocGetN_assocSetN db.data db.current_db _ ks hdb]
    simp [mapGet_mapInsert]

/-- C8 (witness): a payload consisting of the bytes CR LF decodes to
itself behind a header of `2`, and a concrete SET/GET round-trip on a
fresh database returns the stored value. -/
theorem c8_roundtrip_amended_witness :
    Resp.read_bulk_string [50] ([13, 10] ++ [13, 10]) = .ok (some [13, 10]) ∧
    StringOp.get (StringOp.set (Database.new 16) "K" "a b") "K" = some "a b" :=
  ⟨c8_roundtrip_amended.1 [50] [13, 10] (by decide) (by decide),
    c8_roundtrip_amended.2 (Database.new 16) "K" "a b" [] (by decide)⟩

/-- C9 (counterexample): the selected-database index lives once in the
shared `Database` (`Arc<Database>`), not per connection.  On `exDb9`,
before any SELECT a GET of `"x"` (whichever connection issues it) reads
database 0 and finds `"v0"`; after connection A runs `SELECT 1`, the same
GET issued by connection B reads database 1 and finds nothing, so A's
SELECT changed the database targeted by B's commands. -/
theorem c9_select_processwide_counterexample :
    StringOp.get exDb9 "x" = some "v0" ∧
    (select_cmd exDb9 "1").1 = "+OK\r\n" ∧
    (select_cmd exDb9 "1").2.current_db = 1 ∧
    StringOp.get (select_cmd exDb9 "1").2 "x" = none := by
  refine ⟨by decide, by decide, by decide, by decide⟩

/-- C9 (amended): `SELECT i` mutates the one `current_db` selector shared
by every connection of the process.  A valid index (below the number of
databases) becomes the new selector for all subsequent commands of all
connections, while the keyspaces and expiration tables are untouched; an
out-of-range index leaves the state entirely unchanged. -/
theorem c9_select_amended (db : Database) (i : Nat) :
    (i < db.data.length →
      (KeyOp.select db i).current_db = i ∧
      (KeyOp.select db i).data = db.data ∧
      (KeyOp.select db i).data_expiration_time = db.data_expiration_time) ∧
    (db.data.length ≤ i → KeyOp.select db i = db) := by
  constructor
  · intro h
    unfold KeyOp.select
    rw [if_neg (by omega)]
    exact ⟨rfl, rfl, rfl⟩
  · intro h
    unfold KeyOp.select
    rw [if_pos h]

/-- C9 (witness): the amended statement instantiated on `exDb9` with the
valid index 1 and the invalid index 2. -/
theorem c9_select_amended_witness :
    ((KeyOp.select exDb9 1).current_db = 1 ∧
      (KeyOp.select exDb9 1).data = exDb9.data ∧
      (KeyOp.select exDb9 1).data_expiration_time = exDb9.data_expiration_time) ∧
    KeyOp.select exDb9 2 = exDb9 :=
  ⟨(c9_select_amended exDb9 1).1 (by decide),
    (c9_select_amended exDb9 2).2 (by decide)⟩

/-- C10: command execution is not total.  `RedisList::range` normalizes
`stop = i64::MAX` by computing `stop + 1`, which overflows `i64`: a debug
build aborts at the addition, and a release build wraps to `i64::MIN`,
casts it to the huge `usize` 2⁶³ and calls `VecDeque::range(0..2⁶³)` on a
one-element deque, which panics.  The abort is the `none` value of the
model, reached from `LRANGE L 0 9223372036854775807` on a one-element
list (`LTRIM` takes the same path), so this dispatch path produces no
reply frame. -/
theorem c10_lrange_extreme_aborts :
    RedisList.range ["x"] 0 (2 ^ 63 - 1) = none ∧
    RedisList.trim ["x"] 0 (2 ^ 63 - 1) = none ∧
    lrange_cmd exDb10 "L" 0 (2 ^ 63 - 1) = none := by
  refine ⟨by decide, by decide, by decide⟩
